import Mathlib

/-!
Shallow embedding of the route-map component in src/unnamed/part_000
(the LiveMapBox React component of the fleet-tracker school-managers UI).

Modelling conventions:
* A JavaScript number is `JSNum`: either a finite value (carried as an
  integer; the component never does arithmetic on coordinates, it only
  tests `isNaN`) or `nan` (which also stands for any value `isNaN`
  coerces to true).
* A runtime value sitting in a `location` field is `JSVal`: an array of
  JS numbers, or some non-array value.
* Map-surface effects (marker placement, bounds extension, fitBounds,
  line layers) are recorded as events, in the order the code applies
  them.  The external directions service is an environment
  `dirs : Nat → DirectionsResult` giving the outcome of each route's
  directions fetch.
* `Marker.setLngLat` and `LngLatBounds.extend` run their argument
  through mapbox-gl's `LngLat.convert`, which raises on `undefined`
  (the code's `stops[0]` for an empty stop list), on non-arrays, on
  arrays whose length is neither 2 nor 3, and on NaN entries; the
  component's outer `try/catch` turns the raise into an alert.
  `mapboxAccepts` captures what `LngLat.convert` accepts, and
  `fetchRoutesDataFull` is the pipeline with these raises at every
  placement, including the unvalidated home-marker pass.
  `fetchRoutesData` is the same pipeline restricted to loads whose
  coordinates are all placeable (only the stops[0]-undefined raise
  remains); `fetchRoutesDataFull_agrees` proves the two coincide on
  such loads, so theorems about loads with placeable coordinates may
  be stated on either.
-/

inductive JSNum where
  | nan : JSNum
  | num : Int → JSNum
deriving DecidableEq, Repr

def JSNum.isNaN : JSNum → Bool
  | .nan => true
  | .num _ => false

inductive JSVal where
  | arr : List JSNum → JSVal
  | nonArray : JSVal
deriving DecidableEq, Repr

/-- Coordinate validation from part_000 lines 131-136:
Array.isArray, length 2, both entries not NaN. -/
def isValidLocation : JSVal → Bool
  | .arr es => es.length == 2 && !(es.getD 0 .nan).isNaN && !(es.getD 1 .nan).isNaN
  | .nonArray => false

structure Stop where
  student_id : Int
  student_name : String
  location : JSVal
  distance_from_previous : JSNum
  requires_walk : Bool
  walking_distance : JSNum
deriving DecidableEq, Repr

structure FinalDestination where
  latitude : JSNum
  longitude : JSNum
  distance_from_last_stop : JSNum
deriving DecidableEq, Repr

structure Route where
  driver_id : Int
  driver_name : String
  zone_index : Int
  total_students : Int
  total_distance_km : JSNum
  estimated_time_mins : JSNum
  estimated_fuel : JSNum
  stops : List Stop
  final_destination : FinalDestination
deriving DecidableEq, Repr

/-- Response of GET /api/routes/generate; `data := none` models a
non-array `data` field. -/
structure ApiResponse where
  success : Bool
  data : Option (List Route)

/-- Outcome of the primary fetch: network failure or a parsed response. -/
inductive FetchResult where
  | fetchError : FetchResult
  | ok : ApiResponse → FetchResult

/-- Outcome of one route's directions fetch (part_000 lines 177-186):
a thrown fetch/parse error, a response with no routes, or a geometry. -/
inductive DirectionsResult where
  | fetchError : DirectionsResult
  | noRoutes : DirectionsResult
  | ok : List JSVal → DirectionsResult

/-- Label passed to addStopMarker: the decimal numeral of stopIndex+1,
or the literal string School (these string values never coincide). -/
inductive MarkerLabel where
  | numbered : Nat → MarkerLabel
  | school : MarkerLabel
deriving DecidableEq, Repr

inductive RenderEvent where
  | homeMarker : JSVal → RenderEvent
  | driverMarker : JSVal → String → RenderEvent
  | stopMarker : JSVal → MarkerLabel → String → Bool → String → RenderEvent
  | fitBounds : List JSVal → Nat → Nat → RenderEvent
deriving DecidableEq, Repr

inductive LogEntry where
  | invalidFormat : LogEntry
  | fetchFailed : LogEntry
  | invalidStop : Stop → LogEntry
  | noRoutesFound : Nat → LogEntry
  | directionsFailed : Nat → LogEntry
deriving DecidableEq, Repr

structure LineLayer where
  routeIndex : Nat
  color : String
  width : Nat
  coordinates : List JSVal
deriving DecidableEq, Repr

/-- Fixed palette of part_000 line 218. -/
def routeColors : List String :=
  ["#FF0000", "#0000FF", "#00FF00", "#FF00FF", "#00FFFF"]

/-- getRouteColor from part_000 lines 217-220: colors[index % colors.length]. -/
def getRouteColor (index : Nat) : String :=
  routeColors.getD (index % routeColors.length) ""

/-- Derived-state accumulation of part_000 lines 87-101: one pass over
data.data pushing each route's walk-required stops and every stop
location. Returns (allStudentsRequiringWalk, allStudentLocations). -/
def buildDerived (routes : List Route) : List Stop × List JSVal :=
  routes.foldl
    (fun acc r =>
      (acc.1 ++ r.stops.filter (fun s => s.requires_walk),
       acc.2 ++ r.stops.map (fun s => s.location)))
    ([], [])

/-- Coordinate [longitude, latitude] built for the final destination
(part_000 lines 119-122). -/
def finalDestLoc (fd : FinalDestination) : JSVal :=
  .arr [fd.longitude, fd.latitude]

/-- Per-stop loop of part_000 lines 130-142 for one route: `j` is the
0-based stop index; a valid location yields a numbered marker (label
j+1) and a bounds extension, an invalid one only a logged diagnostic.
Returns (marker events, bounds extensions, logs). -/
def stopLoop (color : String) : Nat → List Stop →
    List RenderEvent × List JSVal × List LogEntry
  | _, [] => ([], [], [])
  | j, s :: rest =>
    let (evs, bds, lgs) := stopLoop color (j + 1) rest
    if isValidLocation s.location then
      (.stopMarker s.location (.numbered (j + 1)) color s.requires_walk s.student_name :: evs,
       s.location :: bds, lgs)
    else
      (evs, bds, .invalidStop s :: lgs)

structure RouteResult where
  events : List RenderEvent
  bounds : List JSVal
  lines : List LineLayer
  logs : List LogEntry

/-- Per-route body of part_000 lines 117-150: driver marker at
stops[0] (`none` when the stop list is empty: setLngLat(undefined)
raises and the whole load aborts), numbered stop markers, the School
marker at the final destination, and the fire-and-forget directions
fetch whose success adds one width-4 line layer. -/
def processRoute (dirs : Nat → DirectionsResult) (index : Nat) (r : Route) :
    Option RouteResult :=
  let color := getRouteColor index
  let fd := finalDestLoc r.final_destination
  match (r.stops.map (fun s => s.location)).head? with
  | none => none
  | some loc0 =>
    let (sevs, sbds, slgs) := stopLoop color 0 r.stops
    let lineAdds : List LineLayer :=
      match dirs index with
      | .ok coords => [⟨index, color, 4, coords⟩]
      | _ => []
    let lineLogs : List LogEntry :=
      match dirs index with
      | .ok _ => []
      | .noRoutes => [.noRoutesFound index]
      | .fetchError => [.directionsFailed index]
    some
      { events := .driverMarker loc0 color ::
          (sevs ++ [.stopMarker fd .school color false "School"]),
        bounds := sbds ++ [fd],
        lines := lineAdds,
        logs := slgs ++ lineLogs }

structure RoutePhase where
  events : List RenderEvent
  bounds : List JSVal
  lines : List LineLayer
  logs : List LogEntry
  aborted : Bool

/-- Loop over validRoutes (part_000 line 117): routes are processed in
order starting at index `i`; the first route whose driver-marker
placement raises aborts the loop (later routes untouched, earlier
effects kept, earlier directions requests already issued). -/
def routesLoop (dirs : Nat → DirectionsResult) : Nat → List Route → RoutePhase
  | _, [] => ⟨[], [], [], [], false⟩
  | i, r :: rest =>
    match processRoute dirs i r with
    | none => ⟨[], [], [], [], true⟩
    | some res =>
      let rp := routesLoop dirs (i + 1) rest
      ⟨res.events ++ rp.events, res.bounds ++ rp.bounds,
       res.lines ++ rp.lines, res.logs ++ rp.logs, rp.aborted⟩

structure RenderOutcome where
  events : List RenderEvent
  bounds : List JSVal
  lines : List LineLayer
  routesState : Option (List Route)
  walkState : Option (List Stop)
  locationsState : Option (List JSVal)
  logs : List LogEntry
  alerted : Bool

/-- fetchRoutesData from part_000 lines 76-161, under the idealization
that the map surface accepts every coordinate handed to
setLngLat/extend (valid for loads whose coordinates all pass
`mapboxAccepts`, see `fetchRoutesDataFull_agrees`; `fetchRoutesDataFull`
drops the idealization).  Network failure or a payload without a
success flag and array data throws before any state or marker is
produced; otherwise state is set, home markers and bounds extensions
are applied to every raw stop location, each route is processed, and
(when no route aborted) fitBounds runs once with padding 20 and
maxZoom 15 on the accumulated bounds.  Any throw is caught and
surfaced as an alert. -/
def fetchRoutesData (fr : FetchResult) (dirs : Nat → DirectionsResult) :
    RenderOutcome :=
  match fr with
  | .fetchError =>
    ⟨[], [], [], none, none, none, [.fetchFailed], true⟩
  | .ok resp =>
    match resp.success, resp.data with
    | true, some routes =>
      let (walk, locs) := buildDerived routes
      let homeEvents := locs.map RenderEvent.homeMarker
      let rp := routesLoop dirs 0 routes
      let allBounds := locs ++ rp.bounds
      if rp.aborted then
        ⟨homeEvents ++ rp.events, allBounds, rp.lines,
         some routes, some walk, some locs, rp.logs, true⟩
      else
        ⟨homeEvents ++ rp.events ++ [.fitBounds allBounds 20 15], allBounds,
         rp.lines, some routes, some walk, some locs, rp.logs, false⟩
    | _, _ =>
      ⟨[], [], [], none, none, none, [.invalidFormat], true⟩

/-- Layout visibility of a mapbox line layer: explicitly visible,
explicitly none, or never set (mapbox renders an unset layer). -/
inductive Visibility where
  | visible : Visibility
  | noneVis : Visibility
  | defaultVis : Visibility
deriving DecidableEq, Repr

/-- Selector state: the active route id and, for each route index, the
layer route-layer-i (`none` when addLayer never ran for i, i.e. its
directions lookup failed). -/
structure SelectorState where
  activeRouteId : Option Nat
  layers : Nat → Option Visibility

/-- handleRouteClick from part_000 lines 298-310: set the active id,
then for every index of the routes array whose layer exists set its
visibility to visible iff it is the clicked index. -/
def handleRouteClick (numRoutes : Nat) (routeIndex : Nat) (st : SelectorState) :
    SelectorState :=
  { activeRouteId := some routeIndex,
    layers := fun i =>
      if i < numRoutes then
        match st.layers i with
        | some _ => some (if i = routeIndex then .visible else .noneVis)
        | none => none
      else st.layers i }

/-- Whether a layer is rendered: absent layers show nothing, an unset
visibility defaults to shown. -/
def layerShown : Option Visibility → Bool
  | some .noneVis => false
  | some _ => true
  | none => false

/-- Format check of part_000 line 82: the load throws when the payload
lacks a success flag or an array data field. -/
def formatError (resp : ApiResponse) : Bool :=
  !resp.success || resp.data.isNone

def isHomeMarker : RenderEvent → Bool
  | .homeMarker _ => true
  | _ => false

def isDriverMarker : RenderEvent → Bool
  | .driverMarker _ _ => true
  | _ => false

def isNumberedStopMarker : RenderEvent → Bool
  | .stopMarker _ (.numbered _) _ _ _ => true
  | _ => false

def isSchoolMarker : RenderEvent → Bool
  | .stopMarker _ .school _ _ _ => true
  | _ => false

def isFitBounds : RenderEvent → Bool
  | .fitBounds _ _ _ => true
  | _ => false

/-- Coordinates a render event places on the map (fitBounds places none). -/
def eventCoords : RenderEvent → List JSVal
  | .homeMarker l => [l]
  | .driverMarker l _ => [l]
  | .stopMarker l _ _ _ _ => [l]
  | .fitBounds _ _ _ => []

/-- Every stop location of the payload, in route order then stop order. -/
def allStopLocations (routes : List Route) : List JSVal :=
  routes.flatMap (fun r => r.stops.map (fun s => s.location))

/-- Walk-required stops in route order then stop order, per the spec of
the derived-state builder. -/
def walkingStopsSpec (routes : List Route) : List Stop :=
  routes.flatMap (fun r => r.stops.filter (fun s => s.requires_walk))

/-- Numbered markers a route contributes: its structurally valid stops
in order, labelled with their 1-based stop index. -/
def routeStopMarkers (i : Nat) (r : Route) : List RenderEvent :=
  ((List.enumFrom 0 r.stops).filter (fun p => isValidLocation p.2.location)).map
    (fun p => .stopMarker p.2.location (.numbered (p.1 + 1)) (getRouteColor i)
      p.2.requires_walk p.2.student_name)

/-- Marker events a route contributes when its stop list is nonempty:
driver marker at the first stop location, numbered stop markers, then
the School marker at the final destination. -/
def routeMarkerEvents (i : Nat) (r : Route) : List RenderEvent :=
  match r.stops with
  | [] => []
  | s0 :: _ =>
    .driverMarker s0.location (getRouteColor i) ::
      (routeStopMarkers i r ++
        [.stopMarker (finalDestLoc r.final_destination) .school (getRouteColor i)
          false "School"])

/-- Bounds extensions a route contributes: its valid stop locations then
its final destination. -/
def routeBoundExtends (r : Route) : List JSVal :=
  (r.stops.filter (fun s => isValidLocation s.location)).map (fun s => s.location) ++
    [finalDestLoc r.final_destination]

/-- Line layer added for route i, as a function of the directions
outcome. -/
def dirLine (dirs : Nat → DirectionsResult) (i : Nat) : List LineLayer :=
  match dirs i with
  | .ok coords => [⟨i, getRouteColor i, 4, coords⟩]
  | _ => []

/-- Log entries of route i's directions fetch. -/
def dirLog (dirs : Nat → DirectionsResult) (i : Nat) : List LogEntry :=
  match dirs i with
  | .ok _ => []
  | .noRoutes => [.noRoutesFound i]
  | .fetchError => [.directionsFailed i]

/-- Log entries a route contributes: one per invalid stop, then the
directions diagnostics. -/
def routeLogs (dirs : Nat → DirectionsResult) (i : Nat) (r : Route) : List LogEntry :=
  (r.stops.filter (fun s => !isValidLocation s.location)).map LogEntry.invalidStop ++
    dirLog dirs i

/-- Bounds accumulator contents of a fully processed load: every raw
stop location (home pass) then every route's stop/destination extends. -/
def allBoundsSpec (routes : List Route) : List JSVal :=
  allStopLocations routes ++ routes.flatMap routeBoundExtends

/-- Helper to build a concrete valid stop. -/
def mkStop (id : Int) (name : String) (lng lat : Int) (walk : Bool) : Stop :=
  ⟨id, name, .arr [.num lng, .num lat], .num 0, walk, .num 0⟩

/-- Sample route with three valid stops, the first walk-required. -/
def sampleRouteA : Route :=
  ⟨1, "Dana", 0, 3, .num 12, .num 30, .num 5,
   [mkStop 1 "Avery" 10 20 true, mkStop 2 "Blake" 11 21 false,
    mkStop 3 "Casey" 12 22 false],
   ⟨.num 40, .num 30, .num 2⟩⟩

/-- Sample route with two valid stops, none walk-required. -/
def sampleRouteB : Route :=
  ⟨2, "Eli", 1, 2, .num 8, .num 20, .num 3,
   [mkStop 4 "Finley" 13 23 false, mkStop 5 "Gray" 14 24 false],
   ⟨.num 41, .num 31, .num 1⟩⟩

def sampleRoutes : List Route := [sampleRouteA, sampleRouteB]

def sampleDirs : Nat → DirectionsResult :=
  fun _ => .ok [.arr [.num 0, .num 0]]

/-- Sample route whose stop list is empty. -/
def emptyStopsRoute : Route :=
  ⟨3, "Harper", 2, 0, .num 0, .num 0, .num 0, [], ⟨.num 50, .num 32, .num 0⟩⟩

/-- Selector sample: two routes, both layers present at default visibility. -/
def sampleSelector : SelectorState :=
  ⟨none, fun i => if i < 2 then some Visibility.defaultVis else none⟩

/-- Selector sample: two routes, only route-layer-1 exists (route 0's
directions lookup failed). -/
def c8State : SelectorState :=
  ⟨none, fun i => if i = 1 then some Visibility.defaultVis else none⟩

/-- True when no layer with index below m is rendered. -/
def noShownLayerBelow (st : SelectorState) (m : Nat) : Bool :=
  (List.range m).all (fun i => !(layerShown (st.layers i)))

theorem buildDerived_go (routes : List Route) :
    ∀ (a : List Stop) (b : List JSVal),
      routes.foldl
        (fun acc r =>
          (acc.1 ++ r.stops.filter (fun s => s.requires_walk),
           acc.2 ++ r.stops.map (fun s => s.location)))
        (a, b) =
      (a ++ walkingStopsSpec routes, b ++ allStopLocations routes) := by
  induction routes with
  | nil => intro a b; simp [walkingStopsSpec, allStopLocations]
  | cons r rest ih =>
    intro a b
    simp only [List.foldl_cons, ih, walkingStopsSpec, allStopLocations,
      List.flatMap_cons, List.append_assoc]

theorem buildDerived_eq (routes : List Route) :
    buildDerived routes = (walkingStopsSpec routes, allStopLocations routes) := by
  simpa using buildDerived_go routes [] []

theorem stopLoop_eq (color : String) (stops : List Stop) : ∀ j : Nat,
    stopLoop color j stops =
      (((List.enumFrom j stops).filter (fun p => isValidLocation p.2.location)).map
         (fun p => .stopMarker p.2.location (.numbered (p.1 + 1)) color
           p.2.requires_walk p.2.student_name),
       (stops.filter (fun s => isValidLocation s.location)).map (fun s => s.location),
       (stops.filter (fun s => !isValidLocation s.location)).map LogEntry.invalidStop) := by
  induction stops with
  | nil => intro j; simp [stopLoop]
  | cons s rest ih =>
    intro j
    by_cases h : isValidLocation s.location = true
    · simp [stopLoop, ih, List.enumFrom_cons, List.filter_cons, h]
    · simp [stopLoop, ih, List.enumFrom_cons, List.filter_cons, h]

theorem snd_mem_of_mem_enumFrom {α : Type} {p : Nat × α} (l : List α) : ∀ n : Nat,
    p ∈ List.enumFrom n l → p.2 ∈ l := by
  induction l with
  | nil => intro n h; simp [List.enumFrom] at h
  | cons r rest ih =>
    intro n h
    rw [List.enumFrom_cons] at h
    rcases List.mem_cons.mp h with h | h
    · subst h; simp
    · exact List.mem_cons_of_mem _ (ih (n + 1) h)

theorem processRoute_empty (dirs : Nat → DirectionsResult) (i : Nat) (r : Route)
    (h : r.stops = []) : processRoute dirs i r = none := by
  simp [processRoute, h]

theorem processRoute_some (dirs : Nat → DirectionsResult) (i : Nat) (r : Route)
    (s0 : Stop) (tl : List Stop) (h : r.stops = s0 :: tl) :
    processRoute dirs i r =
      some ⟨routeMarkerEvents i r, routeBoundExtends r, dirLine dirs i,
        routeLogs dirs i r⟩ := by
  simp only [processRoute, h, List.map_cons, List.head?_cons, stopLoop_eq,
    routeMarkerEvents, routeStopMarkers, routeBoundExtends, routeLogs, dirLine, dirLog]

theorem routesLoop_spec (dirs : Nat → DirectionsResult) (routes : List Route) :
    ∀ i : Nat, (∀ r ∈ routes, r.stops ≠ []) →
      routesLoop dirs i routes =
        ⟨(List.enumFrom i routes).flatMap (fun p => routeMarkerEvents p.1 p.2),
         routes.flatMap routeBoundExtends,
         (List.enumFrom i routes).flatMap (fun p => dirLine dirs p.1),
         (List.enumFrom i routes).flatMap (fun p => routeLogs dirs p.1 p.2),
         false⟩ := by
  induction routes with
  | nil => intro i _; simp [routesLoop, List.enumFrom]
  | cons r rest ih =>
    intro i hne
    have hr : r.stops ≠ [] := hne r (List.mem_cons_self r rest)
    obtain ⟨s0, tl, hcons⟩ : ∃ s0 tl, r.stops = s0 :: tl := by
      cases hstops : r.stops with
      | nil => exact absurd hstops hr
      | cons a b => exact ⟨a, b, rfl⟩
    have hrest : ∀ q ∈ rest, q.stops ≠ [] :=
      fun q hq => hne q (List.mem_cons_of_mem _ hq)
    simp only [routesLoop, processRoute_some dirs i r s0 tl hcons, ih (i + 1) hrest,
      List.enumFrom_cons, List.flatMap_cons]

theorem routesLoop_no_fitBounds (dirs : Nat → DirectionsResult) (routes : List Route) :
    ∀ i : Nat, (routesLoop dirs i routes).events.countP isFitBounds = 0 := by
  induction routes with
  | nil => intro i; simp [routesLoop]
  | cons r rest ih =>
    intro i
    rw [routesLoop]
    cases hp : processRoute dirs i r with
    | none => simp
    | some res =>
      simp only [List.countP_append]
      have hres : res.events.countP isFitBounds = 0 := by
        rcases hstops : r.stops with _ | ⟨s0, tl⟩
        · rw [processRoute_empty dirs i r hstops] at hp; cases hp
        · rw [processRoute_some dirs i r s0 tl hstops] at hp
          cases hp
          simp only [routeMarkerEvents, hstops, routeStopMarkers]
          rw [List.countP_cons_of_neg _ _ (by simp [isFitBounds])]
          rw [List.countP_append]
          rw [List.countP_eq_zero.mpr (by
            intro e he
            obtain ⟨p, _, hpe⟩ := List.mem_map.mp he
            subst hpe
            simp [isFitBounds])]
          simp [isFitBounds]
      simp [hres, ih]

theorem routesLoop_aborted_of_empty (dirs : Nat → DirectionsResult)
    (routes : List Route) : ∀ i : Nat, (∃ r ∈ routes, r.stops = []) →
      (routesLoop dirs i routes).aborted = true := by
  induction routes with
  | nil => intro i h; simp at h
  | cons r rest ih =>
    intro i h
    rw [routesLoop]
    cases hp : processRoute dirs i r with
    | none => rfl
    | some res =>
      rcases h with ⟨q, hq, hqe⟩
      rcases List.mem_cons.mp hq with hqr | hqrest
      · subst hqr
        rw [processRoute_empty dirs i q hqe] at hp
        cases hp
      · simp [ih (i + 1) ⟨q, hqrest, hqe⟩]

theorem fetchRoutesData_success_eq (routes : List Route)
    (dirs : Nat → DirectionsResult) (hne : ∀ r ∈ routes, r.stops ≠ []) :
    fetchRoutesData (.ok ⟨true, some routes⟩) dirs =
      ⟨(allStopLocations routes).map RenderEvent.homeMarker ++
         ((List.enumFrom 0 routes).flatMap (fun p => routeMarkerEvents p.1 p.2) ++
           [.fitBounds (allBoundsSpec routes) 20 15]),
       allBoundsSpec routes,
       (List.enumFrom 0 routes).flatMap (fun p => dirLine dirs p.1),
       some routes, some (walkingStopsSpec routes), some (allStopLocations routes),
       (List.enumFrom 0 routes).flatMap (fun p => routeLogs dirs p.1 p.2),
       false⟩ := by
  simp only [fetchRoutesData, buildDerived_eq, routesLoop_spec dirs routes 0 hne,
    allBoundsSpec, List.append_assoc]
  rfl

theorem filter_map_of_false {α β : Type} (f : α → β) (p : β → Bool) (l : List α)
    (h : ∀ a, p (f a) = false) : (l.map f).filter p = [] := by
  induction l with
  | nil => rfl
  | cons a rest ih => simp [List.filter_cons, h, ih]

theorem countP_map_of_false {α β : Type} (f : α → β) (p : β → Bool) (l : List α)
    (h : ∀ a, p (f a) = false) : (l.map f).countP p = 0 := by
  rw [List.countP_eq_length_filter, filter_map_of_false f p l h]
  rfl

theorem routeMarkerEvents_no_fitBounds (i : Nat) (r : Route) :
    (routeMarkerEvents i r).countP isFitBounds = 0 := by
  cases hstops : r.stops with
  | nil => simp [routeMarkerEvents, hstops]
  | cons s0 tl =>
    simp only [routeMarkerEvents, hstops]
    rw [List.countP_cons_of_neg _ _ (by simp [isFitBounds])]
    rw [List.countP_append, routeStopMarkers,
      countP_map_of_false _ _ _ (fun p => rfl)]
    simp [isFitBounds]

theorem routeMarkerEvents_coords (i : Nat) (r : Route) (e : RenderEvent)
    (he : e ∈ routeMarkerEvents i r) (l : JSVal) (hl : l ∈ eventCoords e) :
    l ∈ r.stops.map (fun s => s.location) ∨ l ∈ routeBoundExtends r := by
  cases hstops : r.stops with
  | nil => rw [routeMarkerEvents, hstops] at he; simp at he
  | cons s0 tl =>
    simp only [routeMarkerEvents, hstops] at he
    rcases List.mem_cons.mp he with he | he
    · subst he
      simp only [eventCoords, List.mem_singleton] at hl
      subst hl
      left
      simp
    · rcases List.mem_append.mp he with he | he
      · obtain ⟨p, hp, hpe⟩ := List.mem_map.mp (by
          rw [routeStopMarkers] at he; exact he)
        subst hpe
        simp only [eventCoords, List.mem_singleton] at hl
        subst hl
        right
        rw [routeBoundExtends]
        apply List.mem_append_left
        rcases List.mem_filter.mp hp with ⟨hpm, hpv⟩
        exact List.mem_map.mpr ⟨p.2,
          List.mem_filter.mpr ⟨snd_mem_of_mem_enumFrom r.stops 0 hpm, hpv⟩, rfl⟩
      · rw [List.mem_singleton] at he
        subst he
        simp only [eventCoords, List.mem_singleton] at hl
        subst hl
        right
        rw [routeBoundExtends]
        exact List.mem_append_right _ (List.mem_singleton.mpr rfl)

/-- Claim C7: Route color assignment is a pure function of the route index
into the fixed 5-color palette, color(i) = palette[i mod 5]; hence
color(i) = color(i+5), and indices differing by any multiple of 5 get
the same color. -/
theorem routeColor_cycles (i k : Nat) :
    getRouteColor i = routeColors.getD (i % 5) "" ∧
    getRouteColor (i + 5) = getRouteColor i ∧
    getRouteColor (i + 5 * k) = getRouteColor i := by
  refine ⟨rfl, ?_, ?_⟩
  · show routeColors.getD ((i + 5) % routeColors.length) "" =
      routeColors.getD (i % routeColors.length) ""
    rw [show routeColors.length = 5 from rfl, Nat.add_mod_right]
  · show routeColors.getD ((i + 5 * k) % routeColors.length) "" =
      routeColors.getD (i % routeColors.length) ""
    rw [show routeColors.length = 5 from rfl, Nat.add_mul_mod_self_left]

/-- Claim C1: For every fetched route list, the derived walk-required list
equals the concatenation, over routes in payload order, of each
route's stops filtered to requires_walk, preserving order and without
deduplication; its length is the count of walk-required stops across
all routes. -/
theorem walkingStops_from_payload (routes : List Route)
    (dirs : Nat → DirectionsResult) :
    (fetchRoutesData (.ok ⟨true, some routes⟩) dirs).walkState =
      some (routes.flatMap (fun r => r.stops.filter (fun s => s.requires_walk))) ∧
    (routes.flatMap (fun r => r.stops.filter (fun s => s.requires_walk))).length =
      (routes.flatMap (fun r => r.stops)).countP (fun s => s.requires_walk) := by
  constructor
  · simp only [fetchRoutesData, buildDerived_eq]
    split <;> simp [walkingStopsSpec]
  · induction routes with
    | nil => rfl
    | cons r rest ih =>
      simp [List.flatMap_cons, List.countP_append, List.length_append,
        List.countP_eq_length_filter, ih]

/-- Claim C3: A load cycle whose primary fetch fails, or whose payload lacks
a successful flag or an array data field, aborts rendering entirely:
no markers, bounds, lines, or derived state are produced, and a
user-visible alert is raised. -/
theorem load_failure_aborts_render (fr : FetchResult)
    (dirs : Nat → DirectionsResult)
    (h : fr = .fetchError ∨ ∃ resp, fr = .ok resp ∧ formatError resp = true) :
    (fetchRoutesData fr dirs).events = [] ∧
    (fetchRoutesData fr dirs).bounds = [] ∧
    (fetchRoutesData fr dirs).lines = [] ∧
    (fetchRoutesData fr dirs).routesState = none ∧
    (fetchRoutesData fr dirs).walkState = none ∧
    (fetchRoutesData fr dirs).locationsState = none ∧
    (fetchRoutesData fr dirs).alerted = true := by
  rcases h with h | ⟨resp, hfr, hfmt⟩
  · subst h
    exact ⟨rfl, rfl, rfl, rfl, rfl, rfl, rfl⟩
  · subst hfr
    rcases resp with ⟨succ, dat⟩
    rcases succ with _ | _
    · rcases dat with _ | routes <;> exact ⟨rfl, rfl, rfl, rfl, rfl, rfl, rfl⟩
    · rcases dat with _ | routes
      · exact ⟨rfl, rfl, rfl, rfl, rfl, rfl, rfl⟩
      · simp [formatError] at hfmt

theorem load_failure_aborts_render_witness :
    (fetchRoutesData .fetchError sampleDirs).events = [] ∧
    (fetchRoutesData .fetchError sampleDirs).walkState = none ∧
    (fetchRoutesData .fetchError sampleDirs).alerted = true := by
  have h := load_failure_aborts_render .fetchError sampleDirs (Or.inl rfl)
  exact ⟨h.1, h.2.2.2.2.1, h.2.2.2.2.2.2⟩

/-- Claim C2: selectRoute(k) sets, for each route index i whose line layer
exists, that layer's visibility to visible iff i = k, leaves absent
layers and indices beyond the route list untouched, and (layers
existing only at route indices, layer k among them) leaves exactly
line layer k visible. -/
theorem selectRoute_visibility (n k : Nat) (st : SelectorState) :
    (∀ i, i < n → ∀ v, st.layers i = some v →
        (handleRouteClick n k st).layers i =
          some (if i = k then Visibility.visible else Visibility.noneVis)) ∧
    (∀ i, st.layers i = none → (handleRouteClick n k st).layers i = none) ∧
    (∀ i, n ≤ i → (handleRouteClick n k st).layers i = st.layers i) ∧
    (handleRouteClick n k st).activeRouteId = some k ∧
    (k < n → st.layers k ≠ none → (∀ i, n ≤ i → st.layers i = none) →
      ∀ i, layerShown ((handleRouteClick n k st).layers i) = true ↔ i = k) := by
  refine ⟨?_, ?_, ?_, rfl, ?_⟩
  · intro i hi v hv
    simp [handleRouteClick, hi, hv]
  · intro i hv
    by_cases hi : i < n <;> simp [handleRouteClick, hi, hv]
  · intro i hi
    simp [handleRouteClick, Nat.not_lt.mpr hi]
  · intro hk hex hbound i
    constructor
    · intro hshown
      by_contra hik
      by_cases hi : i < n
      · cases hsl : st.layers i with
        | none => simp [handleRouteClick, hi, hsl, layerShown] at hshown
        | some v => simp [handleRouteClick, hi, hsl, hik, layerShown] at hshown
      · have hnone : st.layers i = none := hbound i (Nat.le_of_not_lt hi)
        simp [handleRouteClick, hi, hnone, layerShown] at hshown
    · intro hik
      subst hik
      cases hsl : st.layers i with
      | none => exact absurd hsl hex
      | some v => simp [handleRouteClick, hk, hsl, layerShown]

theorem selectRoute_visibility_witness :
    layerShown ((handleRouteClick 2 0 sampleSelector).layers 0) = true ∧
    (handleRouteClick 2 0 sampleSelector).layers 1 = some Visibility.noneVis := by
  have h := selectRoute_visibility 2 0 sampleSelector
  have hone := h.2.2.2.2 (by decide) (by decide)
    (fun i hi => by simp [sampleSelector, Nat.not_lt.mpr hi])
  refine ⟨(hone 0).mpr rfl, ?_⟩
  have h1 := h.1 1 (by decide) Visibility.defaultVis (by decide)
  simpa using h1

/-- Claim C8 counterexample: selecting route index 0 when route-layer-0 does
not exist (its directions lookup failed) but route-layer-1 does leaves
every existing line layer hidden, refuting that at least one layer is
always exclusively visible once a selection is made. -/
theorem selection_can_hide_all_layers :
    (handleRouteClick 2 0 c8State).activeRouteId = some 0 ∧
    (handleRouteClick 2 0 c8State).layers 0 = none ∧
    (handleRouteClick 2 0 c8State).layers 1 = some Visibility.noneVis ∧
    noShownLayerBelow (handleRouteClick 2 0 c8State) 2 = true := by
  exact ⟨rfl, rfl, rfl, rfl⟩

/-- Claim C8 (amended): once a selection is made of an index whose line layer
exists, at least one line layer (the selected one) is visible;
selections never create or remove layers.  Selecting an index whose
layer does not exist can instead hide every existing layer; before any
selection the model applies no visibility change. -/
theorem selection_of_existing_layer_shows_it (n k : Nat) (st : SelectorState)
    (hk : k < n) (hex : st.layers k ≠ none) :
    layerShown ((handleRouteClick n k st).layers k) = true ∧
    ∀ i, ((handleRouteClick n k st).layers i).isSome = (st.layers i).isSome := by
  constructor
  · cases hsl : st.layers k with
    | none => exact absurd hsl hex
    | some v => simp [handleRouteClick, hk, hsl, layerShown]
  · intro i
    by_cases hi : i < n
    · cases hsl : st.layers i <;> simp [handleRouteClick, hi, hsl]
    · simp [handleRouteClick, hi]

theorem selection_of_existing_layer_shows_it_witness :
    layerShown ((handleRouteClick 2 1 c8State).layers 1) = true := by
  exact (selection_of_existing_layer_shows_it 2 1 c8State (by decide) (by decide)).1

theorem success_fitBounds_once (routes : List Route)
    (dirs : Nat → DirectionsResult) (hne : ∀ r ∈ routes, r.stops ≠ []) :
    (fetchRoutesData (.ok ⟨true, some routes⟩) dirs).events.countP isFitBounds
      = 1 := by
  rw [fetchRoutesData_success_eq routes dirs hne]
  show ((allStopLocations routes).map RenderEvent.homeMarker ++
      ((List.enumFrom 0 routes).flatMap (fun p => routeMarkerEvents p.1 p.2) ++
        [RenderEvent.fitBounds (allBoundsSpec routes) 20 15])).countP isFitBounds = 1
  rw [List.countP_append, List.countP_append,
    countP_map_of_false _ _ _ (fun l => rfl), List.countP_flatMap]
  simp only [Function.comp_def, routeMarkerEvents_no_fitBounds]
  simp [isFitBounds]

/-- Claim C6: Every successful load invokes fitBounds exactly once, as the
last map operation, with padding 20 and maxZoom 15, on a bounds
accumulator containing the coordinate of every placed marker; for the
sample payload of 2 routes with 3 and 2 valid stops, the accumulator
covers all 14 placed marker coordinates (5 home + 2 driver + 5 stop +
2 school). -/
theorem fitBounds_once_covering (routes : List Route)
    (dirs : Nat → DirectionsResult) (hne : ∀ r ∈ routes, r.stops ≠ []) :
    (fetchRoutesData (.ok ⟨true, some routes⟩) dirs).events.countP isFitBounds
      = 1 ∧
    (fetchRoutesData (.ok ⟨true, some routes⟩) dirs).events.getLast? =
      some (.fitBounds
        (fetchRoutesData (.ok ⟨true, some routes⟩) dirs).bounds 20 15) ∧
    (∀ e ∈ (fetchRoutesData (.ok ⟨true, some routes⟩) dirs).events,
      ∀ l ∈ eventCoords e,
        l ∈ (fetchRoutesData (.ok ⟨true, some routes⟩) dirs).bounds) ∧
    ((fetchRoutesData (.ok ⟨true, some sampleRoutes⟩)
        sampleDirs).events.countP isHomeMarker = 5 ∧
     (fetchRoutesData (.ok ⟨true, some sampleRoutes⟩)
        sampleDirs).events.countP isDriverMarker = 2 ∧
     (fetchRoutesData (.ok ⟨true, some sampleRoutes⟩)
        sampleDirs).events.countP isNumberedStopMarker = 5 ∧
     (fetchRoutesData (.ok ⟨true, some sampleRoutes⟩)
        sampleDirs).events.countP isSchoolMarker = 2 ∧
     (fetchRoutesData (.ok ⟨true, some sampleRoutes⟩)
        sampleDirs).walkState.map List.length = some 1 ∧
     ((fetchRoutesData (.ok ⟨true, some sampleRoutes⟩)
        sampleDirs).events.flatMap eventCoords).length = 14 ∧
     (∀ l ∈ (fetchRoutesData (.ok ⟨true, some sampleRoutes⟩)
          sampleDirs).events.flatMap eventCoords,
        l ∈ (fetchRoutesData (.ok ⟨true, some sampleRoutes⟩)
          sampleDirs).bounds)) := by
  refine ⟨success_fitBounds_once routes dirs hne, ?_, ?_, by decide⟩
  · rw [fetchRoutesData_success_eq routes dirs hne]
    show ((allStopLocations routes).map RenderEvent.homeMarker ++
        ((List.enumFrom 0 routes).flatMap (fun p => routeMarkerEvents p.1 p.2) ++
          [RenderEvent.fitBounds (allBoundsSpec routes) 20 15])).getLast? =
      some (RenderEvent.fitBounds (allBoundsSpec routes) 20 15)
    rw [← List.append_assoc, List.getLast?_concat]
  · intro e he l hl
    rw [fetchRoutesData_success_eq routes dirs hne] at he ⊢
    show l ∈ allBoundsSpec routes
    have he2 : e ∈ (allStopLocations routes).map RenderEvent.homeMarker ++
        ((List.enumFrom 0 routes).flatMap (fun p => routeMarkerEvents p.1 p.2) ++
          [RenderEvent.fitBounds (allBoundsSpec routes) 20 15]) := he
    rcases List.mem_append.mp he2 with hm | hm
    · obtain ⟨l0, hl0, hl0e⟩ := List.mem_map.mp hm
      subst hl0e
      simp only [eventCoords, List.mem_singleton] at hl
      subst hl
      exact List.mem_append_left _ hl0
    · rcases List.mem_append.mp hm with hm | hm
      · obtain ⟨p, hp, hpe⟩ := List.mem_flatMap.mp hm
        rcases routeMarkerEvents_coords p.1 p.2 e hpe l hl with hcase | hcase
        · apply List.mem_append_left
          exact List.mem_flatMap.mpr ⟨p.2, snd_mem_of_mem_enumFrom routes 0 hp,
            hcase⟩
        · apply List.mem_append_right
          exact List.mem_flatMap.mpr ⟨p.2, snd_mem_of_mem_enumFrom routes 0 hp,
            hcase⟩
      · rw [List.mem_singleton] at hm
        subst hm
        simp [eventCoords] at hl

theorem fitBounds_once_covering_witness :
    (fetchRoutesData (.ok ⟨true, some sampleRoutes⟩) sampleDirs).events.countP
        isFitBounds = 1 ∧
    (fetchRoutesData (.ok ⟨true, some sampleRoutes⟩) sampleDirs).events.countP
        isHomeMarker = 5 := by
  have h := fitBounds_once_covering sampleRoutes sampleDirs (by decide)
  exact ⟨h.1, h.2.2.2.1⟩

/-- Claim C9: Driver-marker placement uses the first stop location with no
emptiness guard: when every route has stops, each route's driver
marker is placed at its stop 0 location; when some route has zero
stops, the placement receives undefined, the load raises, an alert is
surfaced, and fitBounds never runs. -/
theorem driver_marker_unguarded (routes : List Route)
    (dirs : Nat → DirectionsResult) :
    ((∀ r ∈ routes, r.stops ≠ []) →
      ∀ p ∈ List.enumFrom 0 routes, ∀ s0 tl, p.2.stops = s0 :: tl →
        RenderEvent.driverMarker s0.location (getRouteColor p.1) ∈
          (fetchRoutesData (.ok ⟨true, some routes⟩) dirs).events) ∧
    ((∃ r ∈ routes, r.stops = []) →
      (fetchRoutesData (.ok ⟨true, some routes⟩) dirs).alerted = true ∧
      (fetchRoutesData (.ok ⟨true, some routes⟩) dirs).events.countP isFitBounds
        = 0) := by
  constructor
  · intro hne p hp s0 tl hstops
    rw [fetchRoutesData_success_eq routes dirs hne]
    show RenderEvent.driverMarker s0.location (getRouteColor p.1) ∈
      (allStopLocations routes).map RenderEvent.homeMarker ++
        ((List.enumFrom 0 routes).flatMap (fun q => routeMarkerEvents q.1 q.2) ++
          [RenderEvent.fitBounds (allBoundsSpec routes) 20 15])
    apply List.mem_append_right
    apply List.mem_append_left
    apply List.mem_flatMap.mpr
    refine ⟨p, hp, ?_⟩
    simp only [routeMarkerEvents, hstops]
    exact List.mem_cons_self _ _
  · intro hex
    have hab := routesLoop_aborted_of_empty dirs routes 0 hex
    have hcnt := routesLoop_no_fitBounds dirs routes 0
    constructor
    · simp only [fetchRoutesData, buildDerived_eq, hab]
      rfl
    · simp only [fetchRoutesData, buildDerived_eq, hab]
      show ((allStopLocations routes).map RenderEvent.homeMarker ++
        (routesLoop dirs 0 routes).events).countP isFitBounds = 0
      rw [List.countP_append, countP_map_of_false _ _ _ (fun l => rfl), hcnt]

theorem driver_marker_unguarded_witness :
    RenderEvent.driverMarker (JSVal.arr [.num 10, .num 20]) "#FF0000" ∈
      (fetchRoutesData (.ok ⟨true, some sampleRoutes⟩) sampleDirs).events ∧
    (fetchRoutesData (.ok ⟨true, some [emptyStopsRoute]⟩) sampleDirs).alerted
      = true := by
  constructor
  · exact (driver_marker_unguarded sampleRoutes sampleDirs).1 (by decide)
      (0, sampleRouteA) (by decide) (mkStop 1 "Avery" 10 20 true)
      [mkStop 2 "Blake" 11 21 false, mkStop 3 "Casey" 12 22 false] rfl
  · exact ((driver_marker_unguarded [emptyStopsRoute] sampleDirs).2
      ⟨emptyStopsRoute, List.mem_singleton.mpr rfl, rfl⟩).1


